import Mathlib

/-!
Verification of the hierarchical locking front-end declared in
`src/mongo/db/concurrency/d_concurrency.h`.

The repository ships only the header (declarations and documentation
comments); the implementing translation unit is not part of the sources.
The behavioral model below therefore follows the header's documentation
comments together with the natural-language specification, faithfully to
their words ("Modelled from the spec:" on each such definition).
-/

namespace DConcurrency

/-- The four canonical lock modes of the mode lattice (`LockMode` in the
header): intent shared, intent exclusive, shared, exclusive. -/
inductive LockMode
  | MODE_IS
  | MODE_IX
  | MODE_S
  | MODE_X
deriving DecidableEq, Repr

/-- Hierarchy level of a lockable resource (global / database / collection /
custom), mirroring the resource kinds named in the header's comments. -/
inductive ResourceType
  | RESOURCE_GLOBAL
  | RESOURCE_DATABASE
  | RESOURCE_COLLECTION
  | RESOURCE_MUTEX
deriving DecidableEq, Repr

/-- Modelled from the spec: a Resource Identifier is "a (level, discriminator)
pair where level ∈ {Global, Database, Collection, Custom}"; equality is
structural; database and collection identifiers are derived deterministically
from the namespace name. (`ResourceId` lives in `locker.h`, not in `src/`.) -/
structure ResourceId where
  rtype : ResourceType
  name : String
deriving DecidableEq, Repr

/-- The single well-known Global resource identifier. -/
def resourceIdGlobal : ResourceId :=
  ⟨ResourceType.RESOURCE_GLOBAL, ""⟩

/-- Database resource identifier derived from a database name. -/
def dbResource (db : String) : ResourceId :=
  ⟨ResourceType.RESOURCE_DATABASE, db⟩

/-- Collection resource identifier derived from a full namespace name. -/
def collResource (ns : String) : ResourceId :=
  ⟨ResourceType.RESOURCE_COLLECTION, ns⟩

theorem dbResource_ne_global (db : String) : dbResource db ≠ resourceIdGlobal := by
  simp [dbResource, resourceIdGlobal]

theorem collResource_ne_global (ns : String) : collResource ns ≠ resourceIdGlobal := by
  simp [collResource, resourceIdGlobal]

theorem collResource_ne_db (ns db : String) : collResource ns ≠ dbResource db := by
  simp [collResource, dbResource]

/-- Modelled from the spec: the Lock Tracker's per-context lock state, "a
mapping from Resource Identifier to (mode, reference count)" (spec §3).  The
tracker implementation (`Locker` of `locker.h`) is not under `src/`; we keep
the mapping as an association list so that states are fully concrete. -/
abbrev LockerState := List (ResourceId × LockMode × Nat)

/-- Look up the (mode, reference count) the context currently holds for a
resource, if any. -/
def lookupLock : LockerState → ResourceId → Option (LockMode × Nat)
  | [], _ => none
  | (r', m', n) :: rest, r =>
      if r' = r then some (m', n) else lookupLock rest r

/-- Modelled from the spec: acquisition primitive of the Lock Tracker.
"Recursive/reentrant acquisition of the same resource ... increments the
reference count rather than re-acquiring" (spec §3); a fresh resource is
recorded with reference count 1. -/
def lockAcquire : LockerState → ResourceId → LockMode → LockerState
  | [], r, m => [(r, m, 1)]
  | (r', m', n) :: rest, r, m =>
      if r' = r then (r', m', n + 1) :: rest
      else (r', m', n) :: lockAcquire rest r m

/-- Modelled from the spec: release primitive of the Lock Tracker. "release
decrements and only truly releases at zero" (spec §3). -/
def lockRelease : LockerState → ResourceId → LockerState
  | [], _ => []
  | (r', m', n) :: rest, r =>
      if r' = r then (if n ≤ 1 then rest else (r', m', n - 1) :: rest)
      else (r', m', n) :: lockRelease rest r

/-- Number of distinct resources the Lock Tracker reports as held. -/
def numLocksHeld (s : LockerState) : Nat := s.length

/-- Well-formedness of a tracker state: every recorded reference count is
positive (an entry disappears when its count reaches zero). -/
def wfLocker (s : LockerState) : Prop := ∀ e ∈ s, 1 ≤ e.2.2

instance (s : LockerState) : Decidable (wfLocker s) := by
  unfold wfLocker; infer_instance

theorem wfLocker_nil : wfLocker [] := by
  intro e he; cases he

theorem wfLocker_lockAcquire (s : LockerState) (r : ResourceId) (m : LockMode)
    (h : wfLocker s) : wfLocker (lockAcquire s r m) := by
  induction s with
  | nil => intro e he; simp [lockAcquire] at he; simp [he]
  | cons hd tl ih =>
      obtain ⟨r', m', n⟩ := hd
      by_cases hr : r' = r
      · intro e he
        simp [lockAcquire, hr] at he
        rcases he with he | he
        · simp [he]
        · exact h e (List.mem_cons_of_mem _ he)
      · intro e he
        simp [lockAcquire, hr] at he
        rcases he with he | he
        · subst he; exact h _ (List.mem_cons_self _ _)
        · exact ih (fun e' he' => h e' (List.mem_cons_of_mem _ he')) e he

theorem wfLocker_lockRelease (s : LockerState) (r : ResourceId)
    (h : wfLocker s) : wfLocker (lockRelease s r) := by
  induction s with
  | nil => intro e he; cases he
  | cons hd tl ih =>
      obtain ⟨r', m', n⟩ := hd
      by_cases hr : r' = r
      · by_cases hn : n ≤ 1
        · intro e he
          simp [lockRelease, hr, hn] at he
          exact h e (List.mem_cons_of_mem _ he)
        · intro e he
          simp [lockRelease, hr, hn] at he
          rcases he with he | he
          · subst he; simp; omega
          · exact h e (List.mem_cons_of_mem _ he)
      · intro e he
        simp [lockRelease, hr] at he
        rcases he with he | he
        · subst he; exact h _ (List.mem_cons_self _ _)
        · exact ih (fun e' he' => h e' (List.mem_cons_of_mem _ he')) e he

/-- Releasing a resource undoes the acquisition that was just performed:
`lockRelease` is an exact left inverse of `lockAcquire` on well-formed
states. -/
theorem lockRelease_lockAcquire (s : LockerState) (r : ResourceId) (m : LockMode)
    (h : wfLocker s) : lockRelease (lockAcquire s r m) r = s := by
  induction s with
  | nil => simp [lockAcquire, lockRelease]
  | cons hd tl ih =>
      obtain ⟨r', m', n⟩ := hd
      by_cases hr : r' = r
      · have hn : 1 ≤ n := h (r', m', n) (List.mem_cons_self _ _)
        have hn' : ¬ n + 1 ≤ 1 := by omega
        simp [lockAcquire, lockRelease, hr, hn']
      · simp [lockAcquire, lockRelease, hr]
        exact ih (fun e he => h e (List.mem_cons_of_mem _ he))

/-- Acquiring one resource does not change what the tracker reports for any
other resource. -/
theorem lookupLock_lockAcquire_ne (s : LockerState) (r r' : ResourceId)
    (m : LockMode) (h : r' ≠ r) :
    lookupLock (lockAcquire s r m) r' = lookupLock s r' := by
  have hrr : ¬ r = r' := fun hc => h hc.symm
  induction s with
  | nil => simp [lockAcquire, lookupLock, hrr]
  | cons hd tl ih =>
      obtain ⟨r0, m0, n0⟩ := hd
      by_cases hr : r0 = r
      · subst hr
        simp [lockAcquire, lookupLock, hrr]
      · by_cases hr' : r0 = r'
        · simp [lockAcquire, lookupLock, hr, hr', h]
        · simp [lockAcquire, lookupLock, hr, hr', ih]

/-- Releasing one resource does not change what the tracker reports for any
other resource. -/
theorem lookupLock_lockRelease_ne (s : LockerState) (r r' : ResourceId)
    (h : r' ≠ r) :
    lookupLock (lockRelease s r) r' = lookupLock s r' := by
  have hrr : ¬ r = r' := fun hc => h hc.symm
  induction s with
  | nil => simp [lockRelease]
  | cons hd tl ih =>
      obtain ⟨r0, m0, n0⟩ := hd
      by_cases hr : r0 = r
      · subst hr
        by_cases hn : n0 ≤ 1
        · simp [lockRelease, lookupLock, hn, hrr]
        · simp [lockRelease, lookupLock, hn, hrr]
      · by_cases hr' : r0 = r'
        · simp [lockRelease, lookupLock, hr, hr', h]
        · simp [lockRelease, lookupLock, hr, hr', ih]

/-- Acquiring a resource that was not held records it with the requested mode
and reference count 1. -/
theorem lookupLock_lockAcquire_fresh (s : LockerState) (r : ResourceId)
    (m : LockMode) (h : lookupLock s r = none) :
    lookupLock (lockAcquire s r m) r = some (m, 1) := by
  induction s with
  | nil => simp [lockAcquire, lookupLock]
  | cons hd tl ih =>
      obtain ⟨r0, m0, n0⟩ := hd
      by_cases hr : r0 = r
      · simp [lookupLock, hr] at h
      · simp [lookupLock, hr] at h
        simp [lockAcquire, lookupLock, hr, ih h]

/-- Modelled from the spec / the header comment on `Lock::DBLock` (lines
141-142): "For MODE_IS or MODE_S also acquires global lock in intent-shared
(IS) mode, and for MODE_IX or MODE_X also acquires global lock in
intent-exclusive (IX) mode." -/
def intentMode : LockMode → LockMode
  | LockMode.MODE_IS => LockMode.MODE_IS
  | LockMode.MODE_S => LockMode.MODE_IS
  | LockMode.MODE_IX => LockMode.MODE_IX
  | LockMode.MODE_X => LockMode.MODE_IX

/-- Numeric strength used by the Lock Tracker's held-for-mode check
(IS < IX < S < X, the declaration order of `LockMode`). -/
def modeStrength : LockMode → Nat
  | LockMode.MODE_IS => 1
  | LockMode.MODE_IX => 2
  | LockMode.MODE_S => 3
  | LockMode.MODE_X => 4

/-- Modelled from the spec: the Lock Tracker's query whether the context holds
a resource in at least the given mode ("a suitable Database guard already be
held in a compatible mode", spec §4.1); `Locker::isDbLockedForMode` is not
under `src/`. -/
def isLockHeldForMode (s : LockerState) (r : ResourceId) (m : LockMode) : Bool :=
  match lookupLock s r with
  | some (held, _) => modeStrength m ≤ modeStrength held
  | none => false

/-- `Locker::isDbLockedForMode`: the database-level instance of the check. -/
def isDbLockedForMode (s : LockerState) (db : String) (m : LockMode) : Bool :=
  isLockHeldForMode s (dbResource db) m

/-- The scoped guard kinds declared in the header: `GlobalWrite`,
`GlobalRead`, `DBLock`, `CollectionLock`, `ResourceLock`. -/
inductive Guard
  | globalWrite
  | globalRead
  | dbLock (db : String) (mode : LockMode)
  | collectionLock (ns : String) (mode : LockMode)
  | resourceLock (rid : ResourceId) (mode : LockMode)

/-- Modelled from the spec: the ordered list of Lock Tracker acquisitions a
guard's constructor performs, bottom-up (global → database → collection).
`GlobalWrite`/`GlobalRead` take Global in X/S; `DBLock` first takes Global in
the matching intent mode and then the database resource in the requested
mode; `CollectionLock` takes only the collection resource ("no further
hierarchy traversal"); `ResourceLock` performs "exactly one acquire/release
pair with no hierarchy checks". -/
def guardAcquires : Guard → List (ResourceId × LockMode)
  | Guard.globalWrite => [(resourceIdGlobal, LockMode.MODE_X)]
  | Guard.globalRead => [(resourceIdGlobal, LockMode.MODE_S)]
  | Guard.dbLock db mode =>
      [(resourceIdGlobal, intentMode mode), (dbResource db, mode)]
  | Guard.collectionLock ns mode => [(collResource ns, mode)]
  | Guard.resourceLock rid mode => [(rid, mode)]

/-- Run a guard's constructor: perform its acquisitions in order. -/
def guardConstruct (s : LockerState) (g : Guard) : LockerState :=
  (guardAcquires g).foldl (fun st p => lockAcquire st p.1 p.2) s

/-- Run a guard's destructor: release the acquired resources in reverse
order of acquisition. -/
def guardDestruct (s : LockerState) (g : Guard) : LockerState :=
  (guardAcquires g).foldr (fun p st => lockRelease st p.1) s

theorem wfLocker_acquireList (l : List (ResourceId × LockMode)) (s : LockerState)
    (h : wfLocker s) :
    wfLocker (l.foldl (fun st p => lockAcquire st p.1 p.2) s) := by
  induction l generalizing s with
  | nil => exact h
  | cons p rest ih =>
      exact ih _ (wfLocker_lockAcquire s p.1 p.2 h)

/-- Releasing a guard's acquisitions in reverse order exactly undoes its
construction on any well-formed tracker state. -/
theorem releaseList_acquireList (l : List (ResourceId × LockMode))
    (s : LockerState) (h : wfLocker s) :
    l.foldr (fun p st => lockRelease st p.1)
      (l.foldl (fun st p => lockAcquire st p.1 p.2) s) = s := by
  induction l generalizing s with
  | nil => rfl
  | cons p rest ih =>
      simp only [List.foldl_cons, List.foldr_cons]
      rw [ih _ (wfLocker_lockAcquire s p.1 p.2 h)]
      exact lockRelease_lockAcquire s p.1 p.2 h

theorem wfLocker_guardConstruct (s : LockerState) (g : Guard) (h : wfLocker s) :
    wfLocker (guardConstruct s g) :=
  wfLocker_acquireList (guardAcquires g) s h

theorem guardDestruct_guardConstruct (s : LockerState) (g : Guard)
    (h : wfLocker s) : guardDestruct (guardConstruct s g) g = s :=
  releaseList_acquireList (guardAcquires g) s h

/-- Construct a list of nested guards, leftmost (outermost) first. -/
def constructAll (s : LockerState) (gs : List Guard) : LockerState :=
  gs.foldl guardConstruct s

/-- Destroy a list of nested guards in reverse construction order
(innermost destroyed first). -/
def destructAllRev (s : LockerState) (gs : List Guard) : LockerState :=
  gs.foldr (fun g st => guardDestruct st g) s

theorem destructAllRev_constructAll (gs : List Guard) (s : LockerState)
    (h : wfLocker s) : destructAllRev (constructAll s gs) gs = s := by
  induction gs generalizing s with
  | nil => rfl
  | cons g rest ih =>
      simp only [constructAll, destructAllRev, List.foldl_cons, List.foldr_cons]
      have h' := wfLocker_guardConstruct s g h
      have := ih (guardConstruct s g) h'
      simp only [constructAll, destructAllRev] at this
      rw [this]
      exact guardDestruct_guardConstruct s g h

/-- `DBLock` guard object: the database resource it names and the mode it
currently holds (`_mode` "may be changed through relockWithMode",
header line 163). -/
structure DBLock where
  _id : ResourceId
  _mode : LockMode
deriving DecidableEq, Repr

/-- `DBLock` constructor state effect (header comment lines 141-142). -/
def dbLockConstruct (s : LockerState) (db : String) (mode : LockMode) :
    LockerState :=
  guardConstruct s (Guard.dbLock db mode)

/-- Modelled from the spec / the header comment on `relockWithMode` (lines
151-157): "Releases the DBLock and reacquires it with the new mode. The
global intent lock is retained ... Relocking from MODE_IS or MODE_S to
MODE_IX or MODE_X is not allowed"; the forbidden transition is rejected by a
defensive invariant check, modelled as the `none` result (assertion-style
fail-fast abort, not a recoverable outcome). -/
def dbRelockWithMode (s : LockerState) (l : DBLock) (newMode : LockMode) :
    Option (LockerState × DBLock) :=
  if (l._mode = LockMode.MODE_IS ∨ l._mode = LockMode.MODE_S)
      ∧ (newMode = LockMode.MODE_IX ∨ newMode = LockMode.MODE_X)
  then none
  else some (lockAcquire (lockRelease s l._id) l._id newMode, ⟨l._id, newMode⟩)

/-- Modelled from the spec: `CollectionLock::relockWithMode` follows "the same
relock pattern as the Database guard, parameterized by the Database guard
instance" (spec §4.1); the transition from a held S/IS to X/IX is rejected by
the same defensive check. -/
def collRelockWithMode (s : LockerState) (collId : ResourceId)
    (newMode : LockMode) (_dblock : DBLock) : Option LockerState :=
  match lookupLock s collId with
  | some (cur, _) =>
      if (cur = LockMode.MODE_IS ∨ cur = LockMode.MODE_S)
          ∧ (newMode = LockMode.MODE_IX ∨ newMode = LockMode.MODE_X)
      then none
      else some (lockAcquire (lockRelease s collId) collId newMode)
  | none => none

/-- Modelled from the spec / the header comment on `CollectionLock` (lines
176-179): "An appropriate DBLock must already be held before locking a
collection: it is an error, checked with a dassert(), to not have a suitable
database lock before locking the collection."  The `none` result models the
dassert firing (loud abort); on the good path the guard acquires only the
named collection resource. -/
def collectionLockConstruct (s : LockerState) (db ns : String)
    (mode : LockMode) : Option LockerState :=
  if isDbLockedForMode s db (intentMode mode)
  then some (lockAcquire s (collResource ns) mode)
  else none

/-- A context state has a recursive acquisition when some reference count
exceeds 1 ("False if locks could not be released because of recursive
locking", header line 64). -/
def hasRecursiveLock (s : LockerState) : Bool :=
  s.any (fun e => 2 ≤ e.2.2)

/-- Modelled from the spec: `Locker::saveLockStateAndUnlock` "atomically
captures and clears all of the context's held locks, or signals that this is
not currently possible" (spec §6); impossible exactly when the context is
"nested inside recursive acquisition that cannot be partially unwound"
(spec §4.2).  Returns the snapshot and the cleared state, or `none`. -/
def saveLockStateAndUnlock (s : LockerState) :
    Option (LockerState × LockerState) :=
  if hasRecursiveLock s then none else some (s, [])

/-- Modelled from the spec: `Locker::restoreLockState` "reinstates exactly
the locks described by a previously captured Snapshot" (spec §6). -/
def restoreLockState (snap : LockerState) : LockerState := snap

/-- `Lock::TempRelease` guard object: the persisted snapshot (`_lockSnapshot`,
header line 62) and whether locks were actually released (`_locksReleased`,
header line 65). -/
structure TempRelease where
  _lockSnapshot : LockerState
  _locksReleased : Bool

/-- `TempRelease` constructor (header lines 50-66): attempt to capture and
release everything; when release is impossible because of recursive locking,
record `_locksReleased = false` and leave the tracker untouched. -/
def tempReleaseConstruct (s : LockerState) : TempRelease × LockerState :=
  match saveLockStateAndUnlock s with
  | some (snap, cleared) => (⟨snap, true⟩, cleared)
  | none => (⟨[], false⟩, s)

/-- `TempRelease` destructor: restore the snapshot when a release occurred,
otherwise do nothing. -/
def tempReleaseDestruct (t : TempRelease) (s : LockerState) : LockerState :=
  if t._locksReleased then restoreLockState t._lockSnapshot else s

/-- Result of a Lock Tracker acquisition attempt with a timeout. -/
inductive LockResult
  | LOCK_OK
  | LOCK_TIMEOUT
deriving DecidableEq, Repr

/-- Modelled from the spec: timed acquisition, §6 `acquire(resource, mode,
timeout) -> success`.  Whether the Lock Tracker grants the mode before the
timeout elapses is decided by the external conflict engine, abstracted as the
`granted` oracle.  On timeout the pending (partial) request is unwound before
the failure is reported ("must unwind any partial acquisition already
performed by that construction before the failure is reported", spec §7). -/
def lockWithTimeout (granted : Bool) (s : LockerState) (r : ResourceId)
    (m : LockMode) : LockResult × LockerState :=
  if granted then (LockResult.LOCK_OK, lockAcquire s r m)
  else (LockResult.LOCK_TIMEOUT, lockRelease (lockAcquire s r m) r)

/-- Observable outcome of constructing a timed Global guard: either the guard
is live, or construction threw `DBTryLockTimeoutException` (header lines
214-218); in both cases the context's resulting lock state is carried. -/
inductive GlobalGuardOutcome
  | acquired (s : LockerState)
  | threwDBTryLockTimeout (s : LockerState)
deriving DecidableEq, Repr

/-- `Lock::GlobalWrite` constructor with a timeout (header line 112): acquire
Global in MODE_X; a timeout surfaces as `DBTryLockTimeoutException`. -/
def globalWriteConstruct (granted : Bool) (_timeoutms : Nat)
    (s : LockerState) : GlobalGuardOutcome :=
  match lockWithTimeout granted s resourceIdGlobal LockMode.MODE_X with
  | (LockResult.LOCK_OK, s') => GlobalGuardOutcome.acquired s'
  | (LockResult.LOCK_TIMEOUT, s') => GlobalGuardOutcome.threwDBTryLockTimeout s'

/-- `Lock::GlobalRead` constructor with a timeout (header line 127): acquire
Global in MODE_S; a timeout surfaces as `DBTryLockTimeoutException`. -/
def globalReadConstruct (granted : Bool) (_timeoutms : Nat)
    (s : LockerState) : GlobalGuardOutcome :=
  match lockWithTimeout granted s resourceIdGlobal LockMode.MODE_S with
  | (LockResult.LOCK_OK, s') => GlobalGuardOutcome.acquired s'
  | (LockResult.LOCK_TIMEOUT, s') => GlobalGuardOutcome.threwDBTryLockTimeout s'

/-- `readlocktry` object (header lines 220-227): the success flag `_got` and
the retained guard `_dbrlock` (a scoped_ptr, `none` when empty). -/
structure Readlocktry where
  _got : Bool
  _dbrlock : Option Unit
deriving DecidableEq, Repr

/-- `writelocktry` object (header lines 229-236). -/
structure Writelocktry where
  _got : Bool
  _dbwlock : Option Unit
deriving DecidableEq, Repr

/-- Modelled from the spec: `readlocktry` constructor — attempt a timed
`GlobalRead` and "report success as a boolean rather than blocking forever or
signaling failure as an error" (spec §4.4): the timeout exception is caught
and recorded as `_got = false`, with no guard retained. -/
def readlocktryConstruct (granted : Bool) (tryms : Nat) (s : LockerState) :
    Readlocktry × LockerState :=
  match globalReadConstruct granted tryms s with
  | GlobalGuardOutcome.acquired s' => (⟨true, some ()⟩, s')
  | GlobalGuardOutcome.threwDBTryLockTimeout s' => (⟨false, none⟩, s')

/-- Modelled from the spec: `writelocktry` constructor, the `GlobalWrite`
analogue of `readlocktryConstruct`. -/
def writelocktryConstruct (granted : Bool) (tryms : Nat) (s : LockerState) :
    Writelocktry × LockerState :=
  match globalWriteConstruct granted tryms s with
  | GlobalGuardOutcome.acquired s' => (⟨true, some ()⟩, s')
  | GlobalGuardOutcome.threwDBTryLockTimeout s' => (⟨false, none⟩, s')

/-- State of the process-wide recursive reader/writer batch lock
(`RWLockRecursive &ParallelBatchWriterMode::_batchLock`, header line 80):
whether the exclusive side is held, and how many shared holders exist. -/
structure RWLockRecursiveState where
  exclusiveHeld : Bool
  sharedCount : Nat
deriving DecidableEq, Repr

/-- Modelled from the spec: taking the batch lock's shared side
(`RWLockRecursive::Shared`); blocks — modelled as `none` — while the
exclusive side is held. -/
def rwTrySharedLock (st : RWLockRecursiveState) :
    Option RWLockRecursiveState :=
  if st.exclusiveHeld then none
  else some ⟨st.exclusiveHeld, st.sharedCount + 1⟩

/-- Release of the batch lock's shared side. -/
def rwSharedUnlock (st : RWLockRecursiveState) : RWLockRecursiveState :=
  ⟨st.exclusiveHeld, st.sharedCount - 1⟩

/-- Modelled from the spec: taking the batch lock's exclusive side
(`RWLockRecursive::Exclusive _lk`, header line 83); "exactly one context may
hold the exclusive side" (spec §3), so it blocks — modelled as `none` — while
any shared holder or another exclusive holder exists. -/
def rwTryExclusiveLock (st : RWLockRecursiveState) :
    Option RWLockRecursiveState :=
  if st.exclusiveHeld ∨ 0 < st.sharedCount then none
  else some ⟨true, st.sharedCount⟩

/-- Combined state visible to one execution context: its Lock Tracker plus
the process-wide batch lock. -/
structure ContextState where
  locker : LockerState
  batchLock : RWLockRecursiveState
deriving Repr

/-- `TempRelease` constructor lifted to the combined state: it drives only
the Lock Tracker ("just the normal lock things below", header lines 71-72);
the batch lock is not part of the `Locker` and is untouched. -/
def tempReleaseConstructCtx (c : ContextState) : TempRelease × ContextState :=
  (( tempReleaseConstruct c.locker).1,
   ⟨(tempReleaseConstruct c.locker).2, c.batchLock⟩)

/-- `TempRelease` destructor lifted to the combined state. -/
def tempReleaseDestructCtx (t : TempRelease) (c : ContextState) :
    ContextState :=
  ⟨tempReleaseDestruct t c.locker, c.batchLock⟩

/-- Modelled from the spec: the `ScopedLock` base constructor (header lines
87-99) — when the context has declared itself a batch participant
(`iAmABatchParticipant`), take the batch lock's shared side into `_pbws_lk`
before any further locking; otherwise leave `_pbws_lk` empty.  `none` models
blocking behind an exclusive holder; the returned flag is whether `_pbws_lk`
is non-null. -/
def scopedLockConstruct (isBatchParticipant : Bool) (c : ContextState) :
    Option (ContextState × Bool) :=
  if isBatchParticipant then
    match rwTrySharedLock c.batchLock with
    | some b => some (⟨c.locker, b⟩, true)
    | none => none
  else some (c, false)

/-- `ScopedLock` destructor: drop `_pbws_lk` (releasing the shared side of
the batch lock) when it was held. -/
def scopedLockDestruct (held_pbws : Bool) (c : ContextState) : ContextState :=
  if held_pbws then ⟨c.locker, rwSharedUnlock c.batchLock⟩ else c

/-- `Lock::ParallelBatchWriterMode` constructor (header line 77): take the
batch lock exclusively; `none` models blocking behind existing holders. -/
def parallelBatchWriterModeConstruct (c : ContextState) :
    Option ContextState :=
  match rwTryExclusiveLock c.batchLock with
  | some b => some ⟨c.locker, b⟩
  | none => none

/-- A tracker state mentions each resource at most once (the spec's §3
invariant: "a mapping from Resource Identifier to (mode, reference count)" —
"a context never holds two different modes for the same identifier"). -/
def keysNodup : LockerState → Bool
  | [] => true
  | e :: rest => rest.all (fun e2 => e2.1 ≠ e.1) && keysNodup rest

theorem lookupLock_eq_none_of_all_ne (s : LockerState) (r : ResourceId)
    (h : ∀ e ∈ s, e.1 ≠ r) : lookupLock s r = none := by
  induction s with
  | nil => rfl
  | cons hd tl ih =>
      obtain ⟨r0, m0, n0⟩ := hd
      have h0 : r0 ≠ r := h (r0, m0, n0) (List.mem_cons_self _ _)
      simp [lookupLock, h0]
      exact ih (fun e he => h e (List.mem_cons_of_mem _ he))

/-- Releasing a resource held with reference count 1 removes it entirely
(when the state maps each resource at most once). -/
theorem lookupLock_lockRelease_last (s : LockerState) (r : ResourceId)
    (m : LockMode) (hnd : keysNodup s = true)
    (h : lookupLock s r = some (m, 1)) :
    lookupLock (lockRelease s r) r = none := by
  induction s with
  | nil => simp [lookupLock] at h
  | cons hd tl ih =>
      obtain ⟨r0, m0, n0⟩ := hd
      simp only [keysNodup, Bool.and_eq_true, List.all_eq_true] at hnd
      obtain ⟨hall, htl⟩ := hnd
      by_cases hr : r0 = r
      · subst hr
        simp [lookupLock] at h
        obtain ⟨hm, hn⟩ := h
        subst hn
        simp [lockRelease]
        apply lookupLock_eq_none_of_all_ne
        intro e he
        have := hall e he
        simpa using this
      · simp [lookupLock, hr] at h
        simp [lockRelease, lookupLock, hr]
        exact ih htl h

/-- Claim C1: every database-lock acquisition by a `DBLock` guard with mode
M ∈ {IS, IX, S, X} first acquires the Global resource in the matching intent
mode — IS when M is IS or S, IX when M is IX or X — and then acquires the
named database resource in mode M. -/
theorem c1_dbLock_global_intent_then_db (db : String) (m : LockMode)
    (s : LockerState)
    (hg : lookupLock s resourceIdGlobal = none)
    (hd : lookupLock s (dbResource db) = none) :
    dbLockConstruct s db m
        = lockAcquire (lockAcquire s resourceIdGlobal (intentMode m))
            (dbResource db) m
      ∧ lookupLock (dbLockConstruct s db m) resourceIdGlobal
          = some (intentMode m, 1)
      ∧ lookupLock (dbLockConstruct s db m) (dbResource db) = some (m, 1)
      ∧ ((m = LockMode.MODE_IS ∨ m = LockMode.MODE_S) →
          intentMode m = LockMode.MODE_IS)
      ∧ ((m = LockMode.MODE_IX ∨ m = LockMode.MODE_X) →
          intentMode m = LockMode.MODE_IX) := by
  have heq : dbLockConstruct s db m
      = lockAcquire (lockAcquire s resourceIdGlobal (intentMode m))
          (dbResource db) m := rfl
  refine ⟨heq, ?_, ?_, ?_, ?_⟩
  · rw [heq, lookupLock_lockAcquire_ne _ _ _ _ (dbResource_ne_global db).symm]
    · exact lookupLock_lockAcquire_fresh s resourceIdGlobal (intentMode m) hg
  · rw [heq]
    apply lookupLock_lockAcquire_fresh
    rw [lookupLock_lockAcquire_ne _ _ _ _ (dbResource_ne_global db)]
    exact hd
  · rintro (hm | hm) <;> subst hm <;> rfl
  · rintro (hm | hm) <;> subst hm <;> rfl

theorem c1_dbLock_global_intent_then_db_witness :
    dbLockConstruct [] "testdb" LockMode.MODE_S
        = lockAcquire (lockAcquire [] resourceIdGlobal
            (intentMode LockMode.MODE_S)) (dbResource "testdb") LockMode.MODE_S
      ∧ lookupLock (dbLockConstruct [] "testdb" LockMode.MODE_S)
          resourceIdGlobal = some (intentMode LockMode.MODE_S, 1)
      ∧ lookupLock (dbLockConstruct [] "testdb" LockMode.MODE_S)
          (dbResource "testdb") = some (LockMode.MODE_S, 1)
      ∧ ((LockMode.MODE_S = LockMode.MODE_IS ∨ LockMode.MODE_S = LockMode.MODE_S) →
          intentMode LockMode.MODE_S = LockMode.MODE_IS)
      ∧ ((LockMode.MODE_S = LockMode.MODE_IX ∨ LockMode.MODE_S = LockMode.MODE_X) →
          intentMode LockMode.MODE_S = LockMode.MODE_IX) :=
  c1_dbLock_global_intent_then_db "testdb" LockMode.MODE_S [] (by rfl) (by rfl)

/-- Claim C2: every `DBLock::relockWithMode` call (and the analogous
`CollectionLock` relock) whose currently held mode is S or IS and whose
requested new mode is X or IX is rejected by the defensive invariant check
(modelled as the `none` outcome: an assertion-style fail-fast abort, not a
recoverable runtime condition), in every such attempt. -/
theorem c2_forbidden_relock_rejected (s : LockerState)
    (dbId collId : ResourceId) (cur newMode : LockMode) (cnt : Nat)
    (dbl : DBLock)
    (hheld : cur = LockMode.MODE_IS ∨ cur = LockMode.MODE_S)
    (hnew : newMode = LockMode.MODE_IX ∨ newMode = LockMode.MODE_X)
    (hcoll : lookupLock s collId = some (cur, cnt)) :
    dbRelockWithMode s ⟨dbId, cur⟩ newMode = none
    ∧ collRelockWithMode s collId newMode dbl = none := by
  constructor
  · simp [dbRelockWithMode, hheld, hnew]
  · simp [collRelockWithMode, hcoll, hheld, hnew]

theorem c2_forbidden_relock_rejected_witness :
    dbRelockWithMode [(collResource "d.c", LockMode.MODE_S, 1)]
        ⟨dbResource "d", LockMode.MODE_S⟩ LockMode.MODE_X = none
    ∧ collRelockWithMode [(collResource "d.c", LockMode.MODE_S, 1)]
        (collResource "d.c") LockMode.MODE_X
        ⟨dbResource "d", LockMode.MODE_IX⟩ = none :=
  c2_forbidden_relock_rejected _ (dbResource "d") (collResource "d.c")
    LockMode.MODE_S LockMode.MODE_X 1 ⟨dbResource "d", LockMode.MODE_IX⟩
    (Or.inr rfl) (Or.inr rfl) (by decide)

/-- Claim C3: for any sequence of nested guard constructions followed by
destruction of the guards in reverse construction order, the context's Lock
Tracker reports zero held locks afterward — nothing is leaked and no
resource is released more often than acquired (the final state is exactly
the initial empty state). -/
theorem c3_release_symmetry (gs : List Guard) :
    destructAllRev (constructAll [] gs) gs = []
    ∧ numLocksHeld (destructAllRev (constructAll [] gs) gs) = 0 := by
  have h := destructAllRev_constructAll gs [] wfLocker_nil
  exact ⟨h, by rw [h]; rfl⟩

theorem c3_release_symmetry_witness :
    destructAllRev
        (constructAll [] [Guard.globalRead,
          Guard.dbLock "d" LockMode.MODE_IX,
          Guard.collectionLock "d.c" LockMode.MODE_IX])
        [Guard.globalRead, Guard.dbLock "d" LockMode.MODE_IX,
          Guard.collectionLock "d.c" LockMode.MODE_IX] = []
    ∧ numLocksHeld (destructAllRev
        (constructAll [] [Guard.globalRead,
          Guard.dbLock "d" LockMode.MODE_IX,
          Guard.collectionLock "d.c" LockMode.MODE_IX])
        [Guard.globalRead, Guard.dbLock "d" LockMode.MODE_IX,
          Guard.collectionLock "d.c" LockMode.MODE_IX]) = 0 :=
  c3_release_symmetry [Guard.globalRead, Guard.dbLock "d" LockMode.MODE_IX,
    Guard.collectionLock "d.c" LockMode.MODE_IX]

/-- Claim C4: constructing a `CollectionLock` requires a suitable database
lock already held for the same namespace; the precondition is checked by a
dassert — under the precondition the error branch is unreachable and the
guard acquires only the named collection resource (every other resource's
entry is untouched), while a violation aborts loudly (the `none` outcome)
rather than silently proceeding. -/
theorem c4_collection_lock_precondition (s : LockerState) (db ns : String)
    (mode : LockMode) :
    (isDbLockedForMode s db (intentMode mode) = true →
        collectionLockConstruct s db ns mode
          = some (lockAcquire s (collResource ns) mode)
        ∧ ∀ r, r ≠ collResource ns →
            lookupLock (lockAcquire s (collResource ns) mode) r
              = lookupLock s r)
    ∧ (isDbLockedForMode s db (intentMode mode) = false →
        collectionLockConstruct s db ns mode = none) := by
  constructor
  · intro hpre
    refine ⟨by simp [collectionLockConstruct, hpre], ?_⟩
    intro r hr
    exact lookupLock_lockAcquire_ne s (collResource ns) r mode hr
  · intro hpre
    simp [collectionLockConstruct, hpre]

theorem c4_collection_lock_precondition_witness :
    (isDbLockedForMode [(dbResource "d", LockMode.MODE_IX, 1)] "d"
        (intentMode LockMode.MODE_IX) = true →
        collectionLockConstruct [(dbResource "d", LockMode.MODE_IX, 1)]
            "d" "d.c" LockMode.MODE_IX
          = some (lockAcquire [(dbResource "d", LockMode.MODE_IX, 1)]
              (collResource "d.c") LockMode.MODE_IX)
        ∧ ∀ r, r ≠ collResource "d.c" →
            lookupLock (lockAcquire [(dbResource "d", LockMode.MODE_IX, 1)]
                (collResource "d.c") LockMode.MODE_IX) r
              = lookupLock [(dbResource "d", LockMode.MODE_IX, 1)] r)
    ∧ (isDbLockedForMode [(dbResource "d", LockMode.MODE_IX, 1)] "d"
        (intentMode LockMode.MODE_IX) = false →
        collectionLockConstruct [(dbResource "d", LockMode.MODE_IX, 1)]
            "d" "d.c" LockMode.MODE_IX = none) :=
  c4_collection_lock_precondition [(dbResource "d", LockMode.MODE_IX, 1)]
    "d" "d.c" LockMode.MODE_IX

/-- Claim C5: a `TempRelease` guard is an exact round-trip when construction
released the locks — destruction restores exactly the state held before
construction (same resources, modes, reference counts) — and when release
was impossible (recursive locking) construction releases nothing and
destruction is a no-op; neither outcome is an error. -/
theorem c5_temprelease_roundtrip (s : LockerState) :
    tempReleaseDestruct (tempReleaseConstruct s).1 (tempReleaseConstruct s).2
        = s
    ∧ ((tempReleaseConstruct s).1._locksReleased = true →
        (tempReleaseConstruct s).2 = [])
    ∧ ((tempReleaseConstruct s).1._locksReleased = false →
        (tempReleaseConstruct s).2 = s
        ∧ tempReleaseDestruct (tempReleaseConstruct s).1
            (tempReleaseConstruct s).2 = (tempReleaseConstruct s).2) := by
  by_cases h : hasRecursiveLock s = true
  · simp [tempReleaseConstruct, tempReleaseDestruct, saveLockStateAndUnlock, h]
  · simp [tempReleaseConstruct, tempReleaseDestruct, saveLockStateAndUnlock,
      restoreLockState, h]

theorem c5_temprelease_roundtrip_witness :
    tempReleaseDestruct
        (tempReleaseConstruct [(resourceIdGlobal, LockMode.MODE_X, 1)]).1
        (tempReleaseConstruct [(resourceIdGlobal, LockMode.MODE_X, 1)]).2
        = [(resourceIdGlobal, LockMode.MODE_X, 1)]
    ∧ ((tempReleaseConstruct [(resourceIdGlobal, LockMode.MODE_X, 1)]).1._locksReleased
          = true →
        (tempReleaseConstruct [(resourceIdGlobal, LockMode.MODE_X, 1)]).2 = [])
    ∧ ((tempReleaseConstruct [(resourceIdGlobal, LockMode.MODE_X, 1)]).1._locksReleased
          = false →
        (tempReleaseConstruct [(resourceIdGlobal, LockMode.MODE_X, 1)]).2
            = [(resourceIdGlobal, LockMode.MODE_X, 1)]
        ∧ tempReleaseDestruct
            (tempReleaseConstruct [(resourceIdGlobal, LockMode.MODE_X, 1)]).1
            (tempReleaseConstruct [(resourceIdGlobal, LockMode.MODE_X, 1)]).2
          = (tempReleaseConstruct [(resourceIdGlobal, LockMode.MODE_X, 1)]).2) :=
  c5_temprelease_roundtrip [(resourceIdGlobal, LockMode.MODE_X, 1)]

/-- Claim C6: a Global guard (`GlobalWrite` or `GlobalRead`) constructed with
a finite timeout that elapses before the lock is granted fails observably —
the outcome is the thrown `DBTryLockTimeoutException`, distinguishable from
a successful acquisition — and leaves the requesting context's lock-state
mapping exactly as it was before the call (the pending partial acquisition
is unwound). -/
theorem c6_timed_global_guard_no_partial (s : LockerState) (t : Nat)
    (hwf : wfLocker s) :
    globalWriteConstruct false t s = GlobalGuardOutcome.threwDBTryLockTimeout s
    ∧ globalReadConstruct false t s
        = GlobalGuardOutcome.threwDBTryLockTimeout s
    ∧ ∀ s1 s2, GlobalGuardOutcome.threwDBTryLockTimeout s1
        ≠ GlobalGuardOutcome.acquired s2 := by
  refine ⟨?_, ?_, ?_⟩
  · simp [globalWriteConstruct, lockWithTimeout,
      lockRelease_lockAcquire s resourceIdGlobal LockMode.MODE_X hwf]
  · simp [globalReadConstruct, lockWithTimeout,
      lockRelease_lockAcquire s resourceIdGlobal LockMode.MODE_S hwf]
  · intro s1 s2 hc
    cases hc

theorem c6_timed_global_guard_no_partial_witness :
    globalWriteConstruct false 0 [(dbResource "d", LockMode.MODE_IS, 1)]
        = GlobalGuardOutcome.threwDBTryLockTimeout
            [(dbResource "d", LockMode.MODE_IS, 1)]
    ∧ globalReadConstruct false 0 [(dbResource "d", LockMode.MODE_IS, 1)]
        = GlobalGuardOutcome.threwDBTryLockTimeout
            [(dbResource "d", LockMode.MODE_IS, 1)]
    ∧ ∀ s1 s2, GlobalGuardOutcome.threwDBTryLockTimeout s1
        ≠ GlobalGuardOutcome.acquired s2 :=
  c6_timed_global_guard_no_partial [(dbResource "d", LockMode.MODE_IS, 1)] 0
    (by decide)

/-- Claim C7: a `DBLock::relockWithMode` call with an allowed transition —
currently held mode X or IX with any new mode, or any non-strengthening
change (every transition except a held S/IS to a requested X/IX) — releases
the database-level lock and re-acquires it in the new mode, while the
already-held Global intent lock is left entirely untouched — its mode and
reference count afterwards are exactly what they were before. -/
theorem c7_relock_preserves_global_intent (s : LockerState) (db : String)
    (held newMode : LockMode)
    (hnd : keysNodup s = true)
    (hallowed : ¬ ((held = LockMode.MODE_IS ∨ held = LockMode.MODE_S)
        ∧ (newMode = LockMode.MODE_IX ∨ newMode = LockMode.MODE_X)))
    (hdb : lookupLock s (dbResource db) = some (held, 1)) :
    dbRelockWithMode s ⟨dbResource db, held⟩ newMode
        = some (lockAcquire (lockRelease s (dbResource db)) (dbResource db)
              newMode,
            ⟨dbResource db, newMode⟩)
    ∧ lookupLock
        (lockAcquire (lockRelease s (dbResource db)) (dbResource db) newMode)
        resourceIdGlobal = lookupLock s resourceIdGlobal
    ∧ lookupLock
        (lockAcquire (lockRelease s (dbResource db)) (dbResource db) newMode)
        (dbResource db) = some (newMode, 1) := by
  refine ⟨by simp [dbRelockWithMode, hallowed], ?_, ?_⟩
  · rw [lookupLock_lockAcquire_ne _ _ _ _ (dbResource_ne_global db).symm,
      lookupLock_lockRelease_ne _ _ _ (dbResource_ne_global db).symm]
  · exact lookupLock_lockAcquire_fresh _ _ _
      (lookupLock_lockRelease_last s (dbResource db) held hnd hdb)

theorem c7_relock_preserves_global_intent_witness :
    dbRelockWithMode
        [(resourceIdGlobal, LockMode.MODE_IS, 1),
         (dbResource "d", LockMode.MODE_S, 1)]
        ⟨dbResource "d", LockMode.MODE_S⟩ LockMode.MODE_IS
        = some (lockAcquire
            (lockRelease
              [(resourceIdGlobal, LockMode.MODE_IS, 1),
               (dbResource "d", LockMode.MODE_S, 1)] (dbResource "d"))
            (dbResource "d") LockMode.MODE_IS,
          ⟨dbResource "d", LockMode.MODE_IS⟩)
    ∧ lookupLock
        (lockAcquire
          (lockRelease
            [(resourceIdGlobal, LockMode.MODE_IS, 1),
             (dbResource "d", LockMode.MODE_S, 1)] (dbResource "d"))
          (dbResource "d") LockMode.MODE_IS)
        resourceIdGlobal
        = lookupLock
            [(resourceIdGlobal, LockMode.MODE_IS, 1),
             (dbResource "d", LockMode.MODE_S, 1)] resourceIdGlobal
    ∧ lookupLock
        (lockAcquire
          (lockRelease
            [(resourceIdGlobal, LockMode.MODE_IS, 1),
             (dbResource "d", LockMode.MODE_S, 1)] (dbResource "d"))
          (dbResource "d") LockMode.MODE_IS)
        (dbResource "d") = some (LockMode.MODE_IS, 1) :=
  c7_relock_preserves_global_intent
    [(resourceIdGlobal, LockMode.MODE_IS, 1),
     (dbResource "d", LockMode.MODE_S, 1)]
    "d" LockMode.MODE_S LockMode.MODE_IS (by decide) (by decide) (by decide)

/-- Claim C8: `readlocktry` and `writelocktry` report the outcome of the
timed systemwide lock attempt solely through the boolean `got()` — the
timeout is never signalled as an error (the constructor returns normally in
both cases) — and when `got()` is false no Global guard was retained and the
context's lock state is exactly as before the attempt. -/
theorem c8_try_wrappers_boolean_outcome (granted : Bool) (tryms : Nat)
    (s : LockerState) (hwf : wfLocker s) :
    ((readlocktryConstruct granted tryms s).1._got = granted)
    ∧ ((writelocktryConstruct granted tryms s).1._got = granted)
    ∧ ((readlocktryConstruct granted tryms s).1._got = false →
        (readlocktryConstruct granted tryms s).1._dbrlock = none
        ∧ (readlocktryConstruct granted tryms s).2 = s)
    ∧ ((writelocktryConstruct granted tryms s).1._got = false →
        (writelocktryConstruct granted tryms s).1._dbwlock = none
        ∧ (writelocktryConstruct granted tryms s).2 = s) := by
  cases granted
  · simp [readlocktryConstruct, writelocktryConstruct, globalReadConstruct,
      globalWriteConstruct, lockWithTimeout,
      lockRelease_lockAcquire s resourceIdGlobal LockMode.MODE_S hwf,
      lockRelease_lockAcquire s resourceIdGlobal LockMode.MODE_X hwf]
  · simp [readlocktryConstruct, writelocktryConstruct, globalReadConstruct,
      globalWriteConstruct, lockWithTimeout]

theorem c8_try_wrappers_boolean_outcome_witness :
    ((readlocktryConstruct false 5 []).1._got = false)
    ∧ ((writelocktryConstruct false 5 []).1._got = false)
    ∧ ((readlocktryConstruct false 5 []).1._got = false →
        (readlocktryConstruct false 5 []).1._dbrlock = none
        ∧ (readlocktryConstruct false 5 []).2 = [])
    ∧ ((writelocktryConstruct false 5 []).1._got = false →
        (writelocktryConstruct false 5 []).1._dbwlock = none
        ∧ (writelocktryConstruct false 5 []).2 = []) :=
  c8_try_wrappers_boolean_outcome false 5 [] (by decide)

/-- Claim C9: a context holding the Batch Barrier's exclusive side keeps it
held throughout a `TempRelease` — the temporary release suspends only the
ordinary Resource-Identifier locks tracked by the `Locker`, never the batch
lock, across both construction and destruction of the guard. -/
theorem c9_temprelease_keeps_batch_lock (c : ContextState)
    (hexcl : c.batchLock.exclusiveHeld = true) :
    (tempReleaseConstructCtx c).2.batchLock = c.batchLock
    ∧ (tempReleaseConstructCtx c).2.batchLock.exclusiveHeld = true
    ∧ (∀ t c', c'.batchLock = c.batchLock →
        (tempReleaseDestructCtx t c').batchLock = c.batchLock
        ∧ (tempReleaseDestructCtx t c').batchLock.exclusiveHeld = true) := by
  refine ⟨rfl, hexcl, ?_⟩
  intro t c' hc'
  exact ⟨hc', by rw [show (tempReleaseDestructCtx t c').batchLock
    = c'.batchLock from rfl, hc', hexcl]⟩

theorem c9_temprelease_keeps_batch_lock_witness :
    (tempReleaseConstructCtx
        ⟨[(resourceIdGlobal, LockMode.MODE_X, 1)], ⟨true, 0⟩⟩).2.batchLock
        = (⟨true, 0⟩ : RWLockRecursiveState)
    ∧ (tempReleaseConstructCtx
        ⟨[(resourceIdGlobal, LockMode.MODE_X, 1)],
          ⟨true, 0⟩⟩).2.batchLock.exclusiveHeld = true
    ∧ (∀ t c', c'.batchLock = (⟨true, 0⟩ : RWLockRecursiveState) →
        (tempReleaseDestructCtx t c').batchLock
            = (⟨true, 0⟩ : RWLockRecursiveState)
        ∧ (tempReleaseDestructCtx t c').batchLock.exclusiveHeld = true) :=
  c9_temprelease_keeps_batch_lock
    ⟨[(resourceIdGlobal, LockMode.MODE_X, 1)], ⟨true, 0⟩⟩ rfl

/-- Claim C10: a `ScopedLock`-derived guard constructed by a batch
participant takes the process-wide batch lock in shared mode and holds it
for the guard's lifetime (the destructor gives it back); while such a
participant guard exists (a shared holder is present) constructing a
`ParallelBatchWriterMode` blocks, and while a `ParallelBatchWriterMode`
exists (the exclusive side is held) a participant's `ScopedLock`
construction blocks. -/
theorem c10_batch_barrier_mutual_blocking (c : ContextState) :
    (c.batchLock.exclusiveHeld = false →
        scopedLockConstruct true c
          = some (⟨c.locker,
              ⟨c.batchLock.exclusiveHeld, c.batchLock.sharedCount + 1⟩⟩, true)
        ∧ (scopedLockDestruct true
            ⟨c.locker,
              ⟨c.batchLock.exclusiveHeld, c.batchLock.sharedCount + 1⟩⟩).batchLock
          = c.batchLock)
    ∧ (0 < c.batchLock.sharedCount →
        parallelBatchWriterModeConstruct c = none)
    ∧ (c.batchLock.exclusiveHeld = true →
        scopedLockConstruct true c = none)
    ∧ scopedLockConstruct false c = some (c, false) := by
  refine ⟨?_, ?_, ?_, rfl⟩
  · intro hx
    constructor
    · simp [scopedLockConstruct, rwTrySharedLock, hx]
    · simp only [scopedLockDestruct, rwSharedUnlock, if_pos, Nat.add_sub_cancel]
  · intro hs
    simp [parallelBatchWriterModeConstruct, rwTryExclusiveLock, hs]
  · intro hx
    simp [scopedLockConstruct, rwTrySharedLock, hx]

theorem c10_batch_barrier_mutual_blocking_witness :
    (((⟨[], ⟨false, 0⟩⟩ : ContextState).batchLock.exclusiveHeld = false →
        scopedLockConstruct true (⟨[], ⟨false, 0⟩⟩ : ContextState)
          = some (⟨([] : LockerState), ⟨false, 1⟩⟩, true)
        ∧ (scopedLockDestruct true
            ⟨([] : LockerState), ⟨false, 1⟩⟩).batchLock = ⟨false, 0⟩)
    ∧ (0 < (⟨[], ⟨false, 0⟩⟩ : ContextState).batchLock.sharedCount →
        parallelBatchWriterModeConstruct (⟨[], ⟨false, 0⟩⟩ : ContextState)
          = none)
    ∧ ((⟨[], ⟨false, 0⟩⟩ : ContextState).batchLock.exclusiveHeld = true →
        scopedLockConstruct true (⟨[], ⟨false, 0⟩⟩ : ContextState) = none)
    ∧ scopedLockConstruct false (⟨[], ⟨false, 0⟩⟩ : ContextState)
        = some (⟨[], ⟨false, 0⟩⟩, false)) :=
  c10_batch_barrier_mutual_blocking (⟨[], ⟨false, 0⟩⟩ : ContextState)

end DConcurrency
